import Mathlib

/-!
A shallow embedding of the `TripletUI` class from `src/index.mjs`.

The class owns a detached container node (`subdom`), an ordered list of
declarative event bindings (`eventInterfaces`), a tag-to-listener-list map
(`eventListeners`), and a compiled template (`compiledTemplate`).  Its four
methods are `set`, `on`, `publish` and `render`.

External collaborators are modelled as parameters:
  * the handlebars engine: `compile : String → (props → String)` produces the
    opaque compiled template; template-language semantics are out of scope, so
    the evaluation context is the instance's dynamic property bag;
  * the HTML parser behind `innerHTML`: `parse : String → List String` yields
    the descendant-node descriptors of the injected markup, in document order;
  * the CSS engine behind `querySelectorAll`: `selMatches : String → String → Bool`
    decides whether a selector matches a node descriptor;
  * the host DOM: node identity is a `NodeId`; `Doc.appendChild` follows the
    DOM standard, under which appending a node that is already in a tree first
    removes it from its current parent;
  * listener functions: abstract identifiers `ListenerId` together with a
    behaviour map `behave : ListenerId → Event → Option Err`; `some err`
    means the listener throws `err` when invoked with that event.

`publish` returns, next to the updated instance, the trace of listener
invocations it performed (listener id paired with the event argument, in
invocation order) and the exception that escaped, if any.

A JavaScript method's return value is recorded as a `JsRet`: `set`, `on` and
`render` end with `return this`, while `publish` has no return statement and
so evaluates to `undefined`.
-/

abbrev NodeId := Nat
abbrev ListenerId := Nat
abbrev Event := Nat
abbrev Err := Nat

/-- An event binding: `(selector, domEventName, tag)`, exactly the triple
layout used by `eventInterfaces` entries in the source. -/
abbrev Binding := String × String × String

/-- Values storable in the dynamic property bag fed to the template, and
assignable via `set`.  `vbindings` lets a caller overwrite the
`eventInterfaces` field through `set`, as dynamic assignment allows. -/
inductive Value where
  | vstr (s : String)
  | vint (n : Int)
  | vbindings (bs : List Binding)
  | vunit
deriving DecidableEq, Repr

/-- Coerce a dynamic value to a binding list (used when `set` targets the
`eventInterfaces` field; any non-list value degenerates to the empty list). -/
def Value.toBindings : Value → List Binding
  | .vbindings bs => bs
  | _ => []

/-- Association-list lookup, the counterpart of property access /
`hasOwnProperty` on a plain JS object used as a map. -/
def lookupA {κ α : Type} [DecidableEq κ] : List (κ × α) → κ → Option α
  | [], _ => none
  | (k, v) :: rest, key => if k = key then some v else lookupA rest key

/-- Association-list update: overwrite the first entry for `k`, or append a
fresh entry when the key is absent (JS property assignment). -/
def updateA {κ α : Type} [DecidableEq κ] : List (κ × α) → κ → α → List (κ × α)
  | [], k, v => [(k, v)]
  | (k', v') :: rest, k, v =>
    if k' = k then (k, v) :: rest else (k', v') :: updateA rest k v

/-- One node produced by injecting markup into the container: its abstract
descriptor and the native handlers attached to it, each recorded as
`(domEventName, tag)` — firing the handler publishes `tag` on the owning
instance, as in the closure built at src/index.mjs lines 78-80. -/
structure ChildNode where
  desc : String
  handlers : List (String × String)
deriving DecidableEq, Repr

/-- The state of the container node owned by an instance: its current
`innerHTML` string and its parsed descendant nodes. -/
structure Subdom where
  inner : String
  children : List ChildNode
deriving DecidableEq, Repr

/-- The host document: each node id maps to its ordered list of child ids.
Only the attachment structure around the container matters here. -/
structure Doc where
  childMap : List (NodeId × List NodeId)
deriving DecidableEq, Repr

/-- The ordered children of node `p` (absent nodes have no children). -/
def childrenOf (doc : Doc) (p : NodeId) : List NodeId :=
  (lookupA doc.childMap p).getD []

/-- Remove node `c` from every child list: the implicit first step of the DOM
standard's `appendChild` when `c` already lives in the tree. -/
def removeChildEverywhere (doc : Doc) (c : NodeId) : Doc :=
  ⟨doc.childMap.map (fun pr => (pr.1, pr.2.filter (fun x => x ≠ c)))⟩

/-- `p.appendChild(c)` per the DOM standard: detach `c` from its current
parent, then append it as the last child of `p`. -/
def Doc.appendChild (doc : Doc) (p c : NodeId) : Doc :=
  let d := removeChildEverywhere doc c
  ⟨updateA d.childMap p (childrenOf d p ++ [c])⟩

/-- The JS return value of a method: the instance itself (`return this`) or
`undefined` (no return statement). -/
inductive JsRet where
  | self
  | undefined
deriving DecidableEq, Repr

/-- The `TripletUI` instance state (src/index.mjs lines 16-22): the container
node (its id in the host document plus its contents), the binding list, the
listener map, the compiled template, and the dynamic property bag that `set`
writes and template evaluation reads. -/
structure TripletUI where
  subdomId : NodeId
  subdom : Subdom
  eventInterfaces : List Binding
  eventListeners : List (String × List ListenerId)
  compiledTemplate : List (String × Value) → String
  props : List (String × Value)

/-- `new TripletUI(RAW_TEMPLATE)`: a fresh detached `<div>` (its identity is
the caller-chosen fresh `subdomId`), empty binding list, empty listener map,
and the eagerly compiled template. -/
def TripletUI.new (subdomId : NodeId)
    (compile : String → (List (String × Value) → String))
    (RAW_TEMPLATE : String) : TripletUI :=
  { subdomId := subdomId
    subdom := { inner := "", children := [] }
    eventInterfaces := []
    eventListeners := []
    compiledTemplate := compile RAW_TEMPLATE
    props := [] }

/-- `set(key, value)` (src/index.mjs lines 31-34): `this[key] = value` then
`return this`.  Assignment to the reserved field name `eventInterfaces`
overwrites that field (dynamic property semantics); every other key lands in
the property bag.  Collisions with the remaining reserved fields are declared
undefined behaviour by the spec and are outside this model. -/
def TripletUI.set (ui : TripletUI) (key : String) (value : Value) :
    TripletUI × JsRet :=
  (if key = "eventInterfaces" then
    { ui with eventInterfaces := value.toBindings }
   else
    { ui with props := updateA ui.props key value }, JsRet.self)

/-- `on(tag, listener)` (src/index.mjs lines 44-50): lazily create the tag's
array, push the listener, `return this`. -/
def TripletUI.on (ui : TripletUI) (tag : String) (listener : ListenerId) :
    TripletUI × JsRet :=
  let m := if (lookupA ui.eventListeners tag).isSome then ui.eventListeners
           else ui.eventListeners ++ [(tag, [])]
  let cur := (lookupA m tag).getD []
  ({ ui with eventListeners := updateA m tag (cur ++ [listener]) }, JsRet.self)

/-- Run `forEach(listener => listener(event))` over a listener array: return
the invocation trace and the first exception thrown, which aborts the
remaining iterations (JS `forEach` does not catch). -/
def runListeners (behave : ListenerId → Event → Option Err)
    (ls : List ListenerId) (e : Event) :
    List (ListenerId × Event) × Option Err :=
  match ls with
  | [] => ([], none)
  | l :: rest =>
    match behave l e with
    | some err => ([(l, e)], some err)
    | none =>
      let r := runListeners behave rest e
      ((l, e) :: r.1, r.2)

/-- The result of a `publish` call: the updated instance, the trace of
listener invocations, the escaping exception if a listener threw, and the
method's JS return value. -/
structure PublishResult where
  ui : TripletUI
  trace : List (ListenerId × Event)
  thrown : Option Err
  ret : JsRet

/-- `publish(tag, event)` (src/index.mjs lines 59-64): lazily create the
tag's array, then `forEach(listener => listener(event))`.  No return
statement, so the call evaluates to `undefined`. -/
def TripletUI.publish (behave : ListenerId → Event → Option Err)
    (ui : TripletUI) (tag : String) (e : Event) : PublishResult :=
  let m := if (lookupA ui.eventListeners tag).isSome then ui.eventListeners
           else ui.eventListeners ++ [(tag, [])]
  let r := runListeners behave ((lookupA m tag).getD []) e
  { ui := { ui with eventListeners := m }
    trace := r.1
    thrown := r.2
    ret := JsRet.undefined }

/-- One pass of the inner loop of `render` for a single binding
`(selector, domEventName, tag)`: every container descendant matching the
selector gets a handler `(domEventName, tag)` appended. -/
def addHandlersForBinding (selMatches : String → String → Bool) (b : Binding)
    (cs : List ChildNode) : List ChildNode :=
  cs.map (fun c =>
    if selMatches b.1 c.desc then { c with handlers := c.handlers ++ [(b.2.1, b.2.2)] }
    else c)

/-- The result of a `render` call: the updated instance, the updated host
document, and the method's JS return value. -/
structure RenderResult where
  ui : TripletUI
  doc : Doc
  ret : JsRet

/-- `render(parent)` (src/index.mjs lines 73-84): evaluate the compiled
template against the instance, destructively replace the container's
contents (`innerHTML` assignment: fresh parsed children, no handlers),
append the container to `parent`, then walk `eventInterfaces` in order,
attaching a publishing handler to each matching descendant; `return this`. -/
def TripletUI.render (parse : String → List String)
    (selMatches : String → String → Bool)
    (ui : TripletUI) (doc : Doc) (parent : NodeId) : RenderResult :=
  let markup := ui.compiledTemplate ui.props
  let fresh := (parse markup).map
    (fun d => ({ desc := d, handlers := [] } : ChildNode))
  let doc1 := doc.appendChild parent ui.subdomId
  let bound := ui.eventInterfaces.foldl
    (fun cs b => addHandlersForBinding selMatches b cs) fresh
  { ui := { ui with subdom := { inner := markup, children := bound } }
    doc := doc1
    ret := JsRet.self }

/-- The current listener array for a tag (empty when the tag was never
registered), the quantity `publish` iterates over. -/
def listenersOf (ui : TripletUI) (tag : String) : List ListenerId :=
  (lookupA ui.eventListeners tag).getD []

/-- A concrete stand-in for `handlebars.compile`, used to evaluate the model
on closed inputs: the compiled template appends the value of the `name`
property to the raw template text. -/
def demoCompile (RAW : String) : List (String × Value) → String :=
  fun ps =>
    match lookupA ps "name" with
    | some (Value.vstr s) => RAW ++ s
    | _ => RAW

/-- A concrete stand-in for the `innerHTML` parser: the markup becomes a
single descendant node described by the markup string itself. -/
def demoParse (markup : String) : List String := [markup]

/-- A concrete stand-in for the CSS engine: a selector matches exactly the
node descriptor equal to it. -/
def demoSelMatches (sel : String) (d : String) : Bool := sel = d

/-- Concrete listener behaviour where no listener ever throws. -/
def demoBehave : ListenerId → Event → Option Err := fun _ _ => none

/-- Concrete listener behaviour where listener `7` throws error `42` and all
other listeners return normally. -/
def demoThrowBehave : ListenerId → Event → Option Err :=
  fun l _ => if l = 7 then some 42 else none

/-- A concrete instance for evaluating the model on closed inputs. -/
def demoUI : TripletUI := TripletUI.new 0 demoCompile "<span>"

theorem lookupA_updateA_self {κ α : Type} [DecidableEq κ]
    (m : List (κ × α)) (k : κ) (v : α) :
    lookupA (updateA m k v) k = some v := by
  induction m with
  | nil => simp [updateA, lookupA]
  | cons p rest ih =>
    obtain ⟨k', v'⟩ := p
    by_cases h : k' = k
    · simp [updateA, lookupA, h]
    · simp [updateA, lookupA, h, ih]

theorem lookupA_updateA_ne {κ α : Type} [DecidableEq κ]
    (m : List (κ × α)) (k k' : κ) (v : α) (h : k ≠ k') :
    lookupA (updateA m k v) k' = lookupA m k' := by
  induction m with
  | nil => simp [updateA, lookupA, h]
  | cons p rest ih =>
    obtain ⟨q, w⟩ := p
    by_cases hq : q = k
    · simp [updateA, lookupA, hq, h]
    · by_cases hq' : q = k'
      · simp [updateA, lookupA, hq, hq', Ne.symm h]
      · simp [updateA, lookupA, hq, hq', ih]

theorem lookupA_append_none {κ α : Type} [DecidableEq κ]
    (m : List (κ × α)) (k : κ) (v : α) (h : lookupA m k = none) :
    lookupA (m ++ [(k, v)]) k = some v := by
  induction m with
  | nil => simp [lookupA]
  | cons p rest ih =>
    obtain ⟨q, w⟩ := p
    by_cases hq : q = k
    · simp [lookupA, hq] at h
    · simp [lookupA, hq] at h ⊢
      exact ih h

theorem updateA_updateA_self {κ α : Type} [DecidableEq κ]
    (m : List (κ × α)) (k : κ) (v₁ v₂ : α) :
    updateA (updateA m k v₁) k v₂ = updateA m k v₂ := by
  induction m with
  | nil => simp [updateA]
  | cons p rest ih =>
    obtain ⟨q, w⟩ := p
    by_cases hq : q = k
    · simp [updateA, hq]
    · simp [updateA, hq, ih]

theorem listenersOf_on (ui : TripletUI) (tag : String) (f : ListenerId) :
    listenersOf (ui.on tag f).1 tag = listenersOf ui tag ++ [f] := by
  unfold TripletUI.on listenersOf
  cases h : lookupA ui.eventListeners tag with
  | none => simp [h, lookupA_append_none _ _ ([] : List ListenerId) h,
      lookupA_updateA_self]
  | some ls => simp [h, lookupA_updateA_self]

theorem on_eventInterfaces (ui : TripletUI) (tag : String) (f : ListenerId) :
    (ui.on tag f).1.eventInterfaces = ui.eventInterfaces := rfl

theorem on_props (ui : TripletUI) (tag : String) (f : ListenerId) :
    (ui.on tag f).1.props = ui.props := rfl

theorem publish_run (behave : ListenerId → Event → Option Err)
    (ui : TripletUI) (tag : String) (e : Event) :
    ((ui.publish behave tag e).trace, (ui.publish behave tag e).thrown)
      = runListeners behave (listenersOf ui tag) e := by
  unfold TripletUI.publish listenersOf
  cases h : lookupA ui.eventListeners tag with
  | none => simp [h, lookupA_append_none _ _ ([] : List ListenerId) h]
  | some ls => simp [h]

theorem runListeners_all_none (behave : ListenerId → Event → Option Err)
    (e : Event) (ls : List ListenerId) (h : ∀ l ∈ ls, behave l e = none) :
    runListeners behave ls e = (ls.map (fun l => (l, e)), none) := by
  induction ls with
  | nil => rfl
  | cons l rest ih =>
    have hl : behave l e = none := h l (by simp)
    simp [runListeners, hl, ih (fun x hx => h x (by simp [hx]))]

theorem runListeners_throws (behave : ListenerId → Event → Option Err)
    (e : Event) (pre post : List ListenerId) (x : ListenerId) (err : Err)
    (hpre : ∀ l ∈ pre, behave l e = none) (hx : behave x e = some err) :
    runListeners behave (pre ++ x :: post) e
      = (pre.map (fun l => (l, e)) ++ [(x, e)], some err) := by
  induction pre with
  | nil => simp [runListeners, hx]
  | cons l rest ih =>
    have hl : behave l e = none := hpre l (by simp)
    simp [runListeners, hl, ih (fun y hy => hpre y (by simp [hy]))]

theorem childrenOf_remove (m : List (NodeId × List NodeId)) (c p : NodeId) :
    childrenOf (removeChildEverywhere ⟨m⟩ c) p
      = (childrenOf ⟨m⟩ p).filter (fun x => x ≠ c) := by
  induction m with
  | nil => rfl
  | cons pr rest ih =>
    obtain ⟨q, cs⟩ := pr
    by_cases h : q = p
    · simp [childrenOf, removeChildEverywhere, lookupA, h]
    · simpa [childrenOf, removeChildEverywhere, lookupA, h] using ih

theorem childrenOf_update_self (m : List (NodeId × List NodeId))
    (p : NodeId) (v : List NodeId) :
    childrenOf ⟨updateA m p v⟩ p = v := by
  simp [childrenOf, lookupA_updateA_self]

theorem childrenOf_update_ne (m : List (NodeId × List NodeId))
    (p q : NodeId) (v : List NodeId) (h : q ≠ p) :
    childrenOf ⟨updateA m q v⟩ p = childrenOf ⟨m⟩ p := by
  simp [childrenOf, lookupA_updateA_ne _ _ _ _ h]

theorem childrenOf_appendChild_self (doc : Doc) (p c : NodeId) :
    childrenOf (doc.appendChild p c) p
      = (childrenOf doc p).filter (fun x => x ≠ c) ++ [c] := by
  obtain ⟨m⟩ := doc
  show childrenOf ⟨updateA _ p _⟩ p = _
  rw [childrenOf_update_self, childrenOf_remove]

theorem childrenOf_appendChild_ne (doc : Doc) (p q c : NodeId) (h : q ≠ p) :
    childrenOf (doc.appendChild q c) p
      = (childrenOf doc p).filter (fun x => x ≠ c) := by
  obtain ⟨m⟩ := doc
  show childrenOf ⟨updateA _ q _⟩ p = _
  rw [childrenOf_update_ne _ _ _ _ h]
  exact childrenOf_remove m c p

theorem not_mem_filter_ne (l : List NodeId) (c : NodeId) :
    c ∉ l.filter (fun x => x ≠ c) := by
  intro h
  have := (List.mem_filter.mp h).2
  simp at this

theorem filter_ne_of_not_mem (l : List NodeId) (c : NodeId) (h : c ∉ l) :
    l.filter (fun x => x ≠ c) = l := by
  apply List.filter_eq_self.mpr
  intro a ha
  simp
  exact fun hac => h (hac ▸ ha)

theorem map_update_handlers_nil (cs : List ChildNode) :
    cs.map (fun c =>
      { c with handlers := c.handlers ++ ([] : List (String × String)) }) = cs := by
  induction cs with
  | nil => rfl
  | cons c rest ih =>
    cases c
    simp [ih]

theorem foldl_addHandlers (selMatches : String → String → Bool)
    (bs : List Binding) (cs : List ChildNode) :
    bs.foldl (fun acc b => addHandlersForBinding selMatches b acc) cs
      = cs.map (fun c =>
          { c with handlers := (c.handlers
              ++ (bs.filter (fun b => selMatches b.1 c.desc)).map
                   (fun b => (b.2.1, b.2.2))) }) := by
  induction bs generalizing cs with
  | nil =>
    simp only [List.foldl_nil, List.filter_nil, List.map_nil]
    exact (map_update_handlers_nil cs).symm
  | cons b rest ih =>
    rw [List.foldl_cons, ih]
    unfold addHandlersForBinding
    rw [List.map_map]
    refine congrArg (fun f => List.map f cs) ?_
    funext c
    cases hm : selMatches b.1 c.desc with
    | true =>
      cases c
      simp_all [List.filter_cons, List.append_assoc]
    | false =>
      cases c
      simp_all [List.filter_cons]

theorem render_props (parse : String → List String)
    (selMatches : String → String → Bool)
    (ui : TripletUI) (doc : Doc) (parent : NodeId) :
    (ui.render parse selMatches doc parent).ui.props = ui.props := rfl

theorem render_compiledTemplate (parse : String → List String)
    (selMatches : String → String → Bool)
    (ui : TripletUI) (doc : Doc) (parent : NodeId) :
    (ui.render parse selMatches doc parent).ui.compiledTemplate
      = ui.compiledTemplate := rfl

theorem set_props_ne (ui : TripletUI) (key : String) (v : Value)
    (h : key ≠ "eventInterfaces") :
    (ui.set key v).1.props = updateA ui.props key v := by
  simp [TripletUI.set, h]

theorem set_compiledTemplate (ui : TripletUI) (key : String) (v : Value) :
    (ui.set key v).1.compiledTemplate = ui.compiledTemplate := by
  unfold TripletUI.set
  by_cases h : key = "eventInterfaces" <;> simp [h]

/-- Claim C2: `publish(tag, event)` invokes every listener registered under
`tag` exactly once per registration, in registration order, passing the event
as the sole argument; in particular after `on(tag, f1)` then `on(tag, f2)`,
`publish(tag, e)` invokes `f1(e)` before `f2(e)`. -/
theorem claim_C2_publish_order (behave : ListenerId → Event → Option Err)
    (ui : TripletUI) (tag : String) (e : Event) (f₁ f₂ : ListenerId)
    (hall : ∀ l ∈ listenersOf ui tag, behave l e = none)
    (h₁ : behave f₁ e = none) (h₂ : behave f₂ e = none) :
    (ui.publish behave tag e).trace
        = (listenersOf ui tag).map (fun l => (l, e))
    ∧ (((ui.on tag f₁).1.on tag f₂).1.publish behave tag e).trace
        = (listenersOf ui tag).map (fun l => (l, e)) ++ [(f₁, e), (f₂, e)] := by
  constructor
  · have h := publish_run behave ui tag e
    rw [runListeners_all_none behave e _ hall] at h
    exact congrArg Prod.fst h
  · have hon : listenersOf (((ui.on tag f₁).1.on tag f₂).1) tag
        = (listenersOf ui tag ++ [f₁]) ++ [f₂] := by
      rw [listenersOf_on, listenersOf_on]
    have hall₂ : ∀ l ∈ (listenersOf ui tag ++ [f₁]) ++ [f₂],
        behave l e = none := by
      intro l hl
      rcases List.mem_append.mp hl with hl' | hl'
      · rcases List.mem_append.mp hl' with h0 | h0
        · exact hall l h0
        · simp at h0
          exact h0 ▸ h₁
      · simp at hl'
        exact hl' ▸ h₂
    have h := publish_run behave (((ui.on tag f₁).1.on tag f₂).1) tag e
    rw [hon, runListeners_all_none behave e _ hall₂] at h
    simpa [List.map_append] using congrArg Prod.fst h

/-- Claim C2 witness: on the demo instance (no prior listeners), registering
listeners 1 and 2 and publishing event 5 invokes 1 then 2. -/
theorem claim_C2_witness :
    (demoUI.publish demoBehave "t" 5).trace
        = (listenersOf demoUI "t").map (fun l => (l, 5))
    ∧ (((demoUI.on "t" 1).1.on "t" 2).1.publish demoBehave "t" 5).trace
        = (listenersOf demoUI "t").map (fun l => (l, 5)) ++ [(1, 5), (2, 5)] :=
  claim_C2_publish_order demoBehave demoUI "t" 5 1 2 (fun _ _ => rfl) rfl rfl

/-- Claim C3: `publish(tag, event)` on a tag that was never registered never
fails and invokes nothing, and as a side effect the tag's key exists in the
listener map afterwards, mapped to the empty sequence. -/
theorem claim_C3_publish_no_listeners (behave : ListenerId → Event → Option Err)
    (ui : TripletUI) (tag : String) (e : Event)
    (h : lookupA ui.eventListeners tag = none) :
    (ui.publish behave tag e).trace = []
    ∧ (ui.publish behave tag e).thrown = none
    ∧ (ui.publish behave tag e).ui.eventListeners
        = ui.eventListeners ++ [(tag, [])]
    ∧ lookupA (ui.publish behave tag e).ui.eventListeners tag
        = some ([] : List ListenerId) := by
  unfold TripletUI.publish
  simp [h, runListeners, lookupA_append_none _ _ ([] : List ListenerId) h]

/-- Claim C3 witness: publishing on the fresh demo instance under an
unregistered tag invokes nothing, throws nothing, and creates the empty
listener entry. -/
theorem claim_C3_witness :
    (demoUI.publish demoBehave "t" 5).trace = []
    ∧ (demoUI.publish demoBehave "t" 5).thrown = none
    ∧ (demoUI.publish demoBehave "t" 5).ui.eventListeners
        = demoUI.eventListeners ++ [("t", [])]
    ∧ lookupA (demoUI.publish demoBehave "t" 5).ui.eventListeners "t"
        = some ([] : List ListenerId) :=
  claim_C3_publish_no_listeners demoBehave demoUI "t" 5 rfl

/-- Claim C4: an exception thrown by a listener during `publish` is not
caught: it propagates to the caller of `publish`, and no listener registered
after the throwing one is invoked in that `publish` call (the trace stops at
the throwing listener). -/
theorem claim_C4_listener_throw (behave : ListenerId → Event → Option Err)
    (ui : TripletUI) (tag : String) (e : Event)
    (pre post : List ListenerId) (x : ListenerId) (err : Err)
    (hls : listenersOf ui tag = pre ++ x :: post)
    (hpre : ∀ l ∈ pre, behave l e = none)
    (hx : behave x e = some err) :
    (ui.publish behave tag e).thrown = some err
    ∧ (ui.publish behave tag e).trace
        = pre.map (fun l => (l, e)) ++ [(x, e)] := by
  have h := publish_run behave ui tag e
  rw [hls, runListeners_throws behave e pre post x err hpre hx] at h
  exact ⟨congrArg Prod.snd h, congrArg Prod.fst h⟩

/-- Claim C4 witness: with listeners 1 and 7 registered and listener 7
throwing error 42 on event 5, `publish` surfaces error 42 and the trace ends
at listener 7. -/
theorem claim_C4_witness :
    ((((demoUI.on "t" 1).1.on "t" 7).1).publish demoThrowBehave "t" 5).thrown
        = some 42
    ∧ ((((demoUI.on "t" 1).1.on "t" 7).1).publish demoThrowBehave "t" 5).trace
        = [1].map (fun l => (l, 5)) ++ [(7, 5)] :=
  claim_C4_listener_throw demoThrowBehave (((demoUI.on "t" 1).1.on "t" 7).1)
    "t" 5 [1] [] 7 42 (by decide) (by decide) rfl

/-- Claim C7: registering the same listener twice under the same tag via `on`
performs no duplicate detection: a subsequent `publish` on that tag invokes
that listener twice. -/
theorem claim_C7_duplicate_listener (behave : ListenerId → Event → Option Err)
    (ui : TripletUI) (tag : String) (e : Event) (f : ListenerId)
    (h : lookupA ui.eventListeners tag = none) (hf : behave f e = none) :
    (((ui.on tag f).1.on tag f).1.publish behave tag e).trace
        = [(f, e), (f, e)] := by
  have hon : listenersOf (((ui.on tag f).1.on tag f).1) tag = [f, f] := by
    rw [listenersOf_on, listenersOf_on]
    simp [listenersOf, h]
  have hp := publish_run behave (((ui.on tag f).1.on tag f).1) tag e
  rw [hon, runListeners_all_none behave e [f, f]
      (by intro l hl; simp at hl; rw [hl]; exact hf)] at hp
  simpa using congrArg Prod.fst hp

/-- Claim C7 witness: registering listener 3 twice on the fresh demo instance
and publishing event 5 invokes listener 3 exactly twice. -/
theorem claim_C7_witness :
    (((demoUI.on "t" 3).1.on "t" 3).1.publish demoBehave "t" 5).trace
        = [(3, 5), (3, 5)] :=
  claim_C7_duplicate_listener demoBehave demoUI "t" 5 3 rfl rfl

/-- Claim C8: `set(key, value)` assigns the named property onto the instance
(any non-reserved string key, any value) and returns the instance, so chained
calls leave both properties present with their assigned values. -/
theorem claim_C8_set_chaining (ui : TripletUI) (k₁ k₂ : String) (v₁ v₂ : Value)
    (h₁ : k₁ ≠ "eventInterfaces") (h₂ : k₂ ≠ "eventInterfaces")
    (hne : k₁ ≠ k₂) :
    (ui.set k₁ v₁).2 = JsRet.self
    ∧ ((ui.set k₁ v₁).1.set k₂ v₂).2 = JsRet.self
    ∧ lookupA (ui.set k₁ v₁).1.props k₁ = some v₁
    ∧ lookupA ((ui.set k₁ v₁).1.set k₂ v₂).1.props k₁ = some v₁
    ∧ lookupA ((ui.set k₁ v₁).1.set k₂ v₂).1.props k₂ = some v₂ := by
  have hp : ((ui.set k₁ v₁).1.set k₂ v₂).1.props
      = updateA (updateA ui.props k₁ v₁) k₂ v₂ := by
    rw [set_props_ne _ _ _ h₂, set_props_ne _ _ _ h₁]
  refine ⟨rfl, rfl, ?_, ?_, ?_⟩
  · rw [set_props_ne _ _ _ h₁, lookupA_updateA_self]
  · rw [hp, lookupA_updateA_ne _ _ _ _ (Ne.symm hne), lookupA_updateA_self]
  · rw [hp, lookupA_updateA_self]

/-- Claim C8 witness: `set("x", 1).set("y", 2)` on the demo instance yields
an instance carrying both properties, and both calls return the instance. -/
theorem claim_C8_witness :
    (demoUI.set "x" (Value.vint 1)).2 = JsRet.self
    ∧ ((demoUI.set "x" (Value.vint 1)).1.set "y" (Value.vint 2)).2 = JsRet.self
    ∧ lookupA (demoUI.set "x" (Value.vint 1)).1.props "x" = some (Value.vint 1)
    ∧ lookupA ((demoUI.set "x" (Value.vint 1)).1.set "y" (Value.vint 2)).1.props "x"
        = some (Value.vint 1)
    ∧ lookupA ((demoUI.set "x" (Value.vint 1)).1.set "y" (Value.vint 2)).1.props "y"
        = some (Value.vint 2) :=
  claim_C8_set_chaining demoUI "x" "y" (Value.vint 1) (Value.vint 2)
    (by decide) (by decide) (by decide)

/-- Claim C9: no method appends to the event-binding list: `set` with a key
other than the `eventInterfaces` field itself, `on`, `publish`, and `render`
all leave `eventInterfaces` unchanged. -/
theorem claim_C9_eventInterfaces_frame (parse : String → List String)
    (selMatches : String → String → Bool)
    (behave : ListenerId → Event → Option Err) (ui : TripletUI)
    (k : String) (v : Value) (tag : String) (f : ListenerId) (e : Event)
    (doc : Doc) (parent : NodeId) (hk : k ≠ "eventInterfaces") :
    (ui.set k v).1.eventInterfaces = ui.eventInterfaces
    ∧ (ui.on tag f).1.eventInterfaces = ui.eventInterfaces
    ∧ (ui.publish behave tag e).ui.eventInterfaces = ui.eventInterfaces
    ∧ (ui.render parse selMatches doc parent).ui.eventInterfaces
        = ui.eventInterfaces := by
  refine ⟨?_, rfl, rfl, rfl⟩
  simp [TripletUI.set, hk]

/-- Claim C9 witness: on the demo instance, `set "x"`, `on`, `publish` and
`render` leave the binding list unchanged. -/
theorem claim_C9_witness :
    (demoUI.set "x" (Value.vint 1)).1.eventInterfaces = demoUI.eventInterfaces
    ∧ (demoUI.on "t" 1).1.eventInterfaces = demoUI.eventInterfaces
    ∧ (demoUI.publish demoBehave "t" 5).ui.eventInterfaces
        = demoUI.eventInterfaces
    ∧ (demoUI.render demoParse demoSelMatches (⟨[(1, [])]⟩ : Doc) 1).ui.eventInterfaces
        = demoUI.eventInterfaces :=
  claim_C9_eventInterfaces_frame demoParse demoSelMatches demoBehave demoUI
    "x" (Value.vint 1) "t" 1 5 (⟨[(1, [])]⟩ : Doc) 1 (by decide)

/-- Claim C10: `publish` returns `undefined` rather than the instance, while
`set`, `on` and `render` each return the instance, for every input. -/
theorem claim_C10_publish_not_chainable (parse : String → List String)
    (selMatches : String → String → Bool)
    (behave : ListenerId → Event → Option Err) (ui : TripletUI)
    (k : String) (v : Value) (tag : String) (f : ListenerId) (e : Event)
    (doc : Doc) (parent : NodeId) :
    (ui.publish behave tag e).ret = JsRet.undefined
    ∧ (ui.set k v).2 = JsRet.self
    ∧ (ui.on tag f).2 = JsRet.self
    ∧ (ui.render parse selMatches doc parent).ret = JsRet.self :=
  ⟨rfl, rfl, rfl, rfl⟩

/-- Claim C1: `render(parent)` evaluates the compiled template against the
instance (its property bag, including every property assigned via `set`) and
destructively replaces the container's entire contents with the resulting
markup; appends the container to `parent`; attaches, for each declared
binding `(selector, domEventName, tag)` in declaration order, a handler for
`domEventName` publishing `tag` on every matching descendant; and returns the
instance.  Consequently, rendering twice with different values for a property
leaves markup reflecting only the second call's value. -/
theorem claim_C1_render_contract (parse : String → List String)
    (selMatches : String → String → Bool) (ui : TripletUI)
    (doc doc₁ doc₂ : Doc) (parent p₁ p₂ : NodeId)
    (key : String) (v₁ v₂ : Value) (hkey : key ≠ "eventInterfaces") :
    (ui.render parse selMatches doc parent).ui.subdom.inner
        = ui.compiledTemplate ui.props
    ∧ (ui.render parse selMatches doc parent).ui.subdom.children
        = (parse (ui.compiledTemplate ui.props)).map (fun d =>
            { desc := d
              handlers := (ui.eventInterfaces.filter
                  (fun b => selMatches b.1 d)).map (fun b => (b.2.1, b.2.2)) })
    ∧ (ui.render parse selMatches doc parent).doc
        = doc.appendChild parent ui.subdomId
    ∧ (ui.render parse selMatches doc parent).ret = JsRet.self
    ∧ ((((ui.set key v₁).1.render parse selMatches doc₁ p₁).ui.set key v₂).1.render
          parse selMatches doc₂ p₂).ui.subdom.inner
        = ui.compiledTemplate (updateA ui.props key v₂) := by
  refine ⟨rfl, ?_, rfl, rfl, ?_⟩
  · show ui.eventInterfaces.foldl _ _ = _
    rw [foldl_addHandlers, List.map_map]
    rfl
  · have hct : ((((ui.set key v₁).1.render parse selMatches doc₁ p₁).ui.set
        key v₂).1).compiledTemplate = ui.compiledTemplate := by
      rw [set_compiledTemplate, render_compiledTemplate, set_compiledTemplate]
    have hpr : ((((ui.set key v₁).1.render parse selMatches doc₁ p₁).ui.set
        key v₂).1).props = updateA ui.props key v₂ := by
      rw [set_props_ne _ _ _ hkey, render_props, set_props_ne _ _ _ hkey,
        updateA_updateA_self]
    show ((((ui.set key v₁).1.render parse selMatches doc₁ p₁).ui.set
        key v₂).1).compiledTemplate ((((ui.set key v₁).1.render parse
        selMatches doc₁ p₁).ui.set key v₂).1).props = _
    rw [hct, hpr]

/-- Claim C1 witness: a concrete instance with one binding whose selector
matches the rendered markup: the container's contents are the evaluated
template, the handler is attached, the container is appended to parent 1,
render returns the instance, and a second render after an overwriting `set`
shows only the second value. -/
theorem claim_C1_witness :
    ({ demoUI with eventInterfaces := [("<span>a", "click", "tag1")] }.render
        demoParse demoSelMatches (⟨[(1, [])]⟩ : Doc) 1).ui.subdom.inner
      = { demoUI with
          eventInterfaces := [("<span>a", "click", "tag1")] }.compiledTemplate
          { demoUI with eventInterfaces := [("<span>a", "click", "tag1")] }.props
    ∧ ({ demoUI with eventInterfaces := [("<span>a", "click", "tag1")] }.render
        demoParse demoSelMatches (⟨[(1, [])]⟩ : Doc) 1).ui.subdom.children
      = (demoParse ({ demoUI with
          eventInterfaces := [("<span>a", "click", "tag1")] }.compiledTemplate
          { demoUI with
            eventInterfaces := [("<span>a", "click", "tag1")] }.props)).map
          (fun d =>
            { desc := d
              handlers := (({ demoUI with
                  eventInterfaces :=
                    [("<span>a", "click", "tag1")] }.eventInterfaces).filter
                  (fun (b : Binding) => demoSelMatches b.1 d)).map
                  (fun (b : Binding) => (b.2.1, b.2.2)) })
    ∧ ({ demoUI with eventInterfaces := [("<span>a", "click", "tag1")] }.render
        demoParse demoSelMatches (⟨[(1, [])]⟩ : Doc) 1).doc
      = (⟨[(1, [])]⟩ : Doc).appendChild 1
          { demoUI with eventInterfaces := [("<span>a", "click", "tag1")] }.subdomId
    ∧ ({ demoUI with eventInterfaces := [("<span>a", "click", "tag1")] }.render
        demoParse demoSelMatches (⟨[(1, [])]⟩ : Doc) 1).ret = JsRet.self
    ∧ (((({ demoUI with
          eventInterfaces := [("<span>a", "click", "tag1")] }.set "name"
          (Value.vstr "a")).1.render demoParse demoSelMatches
          (⟨[(1, [])]⟩ : Doc) 1).ui.set "name" (Value.vstr "b")).1.render
          demoParse demoSelMatches (⟨[(2, [])]⟩ : Doc) 2).ui.subdom.inner
      = { demoUI with
          eventInterfaces := [("<span>a", "click", "tag1")] }.compiledTemplate
          (updateA { demoUI with
            eventInterfaces := [("<span>a", "click", "tag1")] }.props "name"
            (Value.vstr "b")) :=
  claim_C1_render_contract demoParse demoSelMatches
    { demoUI with eventInterfaces := [("<span>a", "click", "tag1")] }
    (⟨[(1, [])]⟩ : Doc) (⟨[(1, [])]⟩ : Doc) (⟨[(2, [])]⟩ : Doc) 1 1 2
    "name" (Value.vstr "a") (Value.vstr "b") (by decide)

/-- Claim C5: when the container is not already among the parent's children,
`render(parent)` leaves the parent with exactly one additional child, the
instance's container, appended at the end, and the container's markup is the
latest template evaluation over the instance's properties. -/
theorem claim_C5_one_additional_child (parse : String → List String)
    (selMatches : String → String → Bool) (ui : TripletUI)
    (doc : Doc) (parent : NodeId)
    (h : ui.subdomId ∉ childrenOf doc parent) :
    childrenOf (ui.render parse selMatches doc parent).doc parent
        = childrenOf doc parent ++ [ui.subdomId]
    ∧ (childrenOf (ui.render parse selMatches doc parent).doc parent).length
        = (childrenOf doc parent).length + 1
    ∧ (ui.render parse selMatches doc parent).ui.subdom.inner
        = ui.compiledTemplate ui.props := by
  have hd : (ui.render parse selMatches doc parent).doc
      = doc.appendChild parent ui.subdomId := rfl
  have hc : childrenOf (doc.appendChild parent ui.subdomId) parent
      = childrenOf doc parent ++ [ui.subdomId] := by
    rw [childrenOf_appendChild_self, filter_ne_of_not_mem _ _ h]
  refine ⟨hd ▸ hc, ?_, rfl⟩
  rw [hd, hc]
  simp

/-- Claim C5 witness: rendering the demo instance into empty parent 1 leaves
parent 1 with exactly the container as its one child, and the container's
markup is the evaluated template. -/
theorem claim_C5_witness :
    childrenOf (demoUI.render demoParse demoSelMatches
        (⟨[(1, [])]⟩ : Doc) 1).doc 1
      = childrenOf (⟨[(1, [])]⟩ : Doc) 1 ++ [demoUI.subdomId]
    ∧ (childrenOf (demoUI.render demoParse demoSelMatches
        (⟨[(1, [])]⟩ : Doc) 1).doc 1).length
      = (childrenOf (⟨[(1, [])]⟩ : Doc) 1).length + 1
    ∧ (demoUI.render demoParse demoSelMatches
        (⟨[(1, [])]⟩ : Doc) 1).ui.subdom.inner
      = demoUI.compiledTemplate demoUI.props :=
  claim_C5_one_additional_child demoParse demoSelMatches demoUI
    (⟨[(1, [])]⟩ : Doc) 1 (by decide)

/-- Claim C6 counterexample: rendering the demo instance into parent 1 and
then into parent 2 does not leave the container attached to both parents:
the DOM's `appendChild` reparents, so the container is a child of parent 2
only, refuting the claim at this concrete input. -/
theorem claim_C6_counterexample :
    ¬ (demoUI.subdomId ∈ childrenOf
          ((demoUI.render demoParse demoSelMatches
              (⟨[(1, []), (2, [])]⟩ : Doc) 1).ui.render demoParse demoSelMatches
            (demoUI.render demoParse demoSelMatches
              (⟨[(1, []), (2, [])]⟩ : Doc) 1).doc 2).doc 1
       ∧ demoUI.subdomId ∈ childrenOf
          ((demoUI.render demoParse demoSelMatches
              (⟨[(1, []), (2, [])]⟩ : Doc) 1).ui.render demoParse demoSelMatches
            (demoUI.render demoParse demoSelMatches
              (⟨[(1, []), (2, [])]⟩ : Doc) 1).doc 2).doc 2) := by
  decide

/-- Claim C6 amended: `render` never issues an explicit detach, but the DOM's
`appendChild` reparents a node already in a tree, so after rendering into
distinct parents the container is attached only to the most recent parent:
it is absent from the earlier parent's children and present in the latest
parent's children. -/
theorem claim_C6_reparenting (parse : String → List String)
    (selMatches : String → String → Bool) (ui : TripletUI)
    (doc : Doc) (p₁ p₂ : NodeId) (hne : p₁ ≠ p₂) :
    ui.subdomId ∉ childrenOf
        ((ui.render parse selMatches doc p₁).ui.render parse selMatches
          (ui.render parse selMatches doc p₁).doc p₂).doc p₁
    ∧ ui.subdomId ∈ childrenOf
        ((ui.render parse selMatches doc p₁).ui.render parse selMatches
          (ui.render parse selMatches doc p₁).doc p₂).doc p₂ := by
  have hdoc : ((ui.render parse selMatches doc p₁).ui.render parse selMatches
      (ui.render parse selMatches doc p₁).doc p₂).doc
      = ((ui.render parse selMatches doc p₁).doc).appendChild p₂ ui.subdomId :=
    rfl
  constructor
  · rw [hdoc, childrenOf_appendChild_ne _ _ _ _ (Ne.symm hne)]
    exact not_mem_filter_ne _ _
  · rw [hdoc, childrenOf_appendChild_self]
    simp

/-- Claim C6 amended witness: rendering the demo instance into parent 1 and
then parent 2, the container is no longer a child of parent 1 and is a child
of parent 2. -/
theorem claim_C6_witness :
    demoUI.subdomId ∉ childrenOf
        ((demoUI.render demoParse demoSelMatches
            (⟨[(1, []), (2, [])]⟩ : Doc) 1).ui.render demoParse demoSelMatches
          (demoUI.render demoParse demoSelMatches
            (⟨[(1, []), (2, [])]⟩ : Doc) 1).doc 2).doc 1
    ∧ demoUI.subdomId ∈ childrenOf
        ((demoUI.render demoParse demoSelMatches
            (⟨[(1, []), (2, [])]⟩ : Doc) 1).ui.render demoParse demoSelMatches
          (demoUI.render demoParse demoSelMatches
            (⟨[(1, []), (2, [])]⟩ : Doc) 1).doc 2).doc 2 :=
  claim_C6_reparenting demoParse demoSelMatches demoUI
    (⟨[(1, []), (2, [])]⟩ : Doc) 1 2 (by decide)
